import Mathlib

/-!
Shallow embedding of the `dominant_colours` color-extraction pipeline
(`src/main.rs`).  Pure glue code from `main` is translated directly;
the external collaborators (image decoding, the palette crate's sRGB/Lab
conversions, the kmeans library, the entropy source) are parameters of
the pipeline, as the program treats them as black boxes.  The modules
`cli.rs`, `get_bytes.rs` and `terminal_colours.rs` are not in the
sources; where a claim depends on them, a definition modelled from the
spec is used and marked as such.
-/

/-- An 8-bit RGB triplet: the `Srgb<u8>` values flowing through `main`. -/
structure RGB where
  red : Fin 256
  green : Fin 256
  blue : Fin 256
deriving DecidableEq, Repr

/-- One lowercase hex digit for a value below 16 (Rust `{:x}` on a
nibble): code points 48–57 for 0–9 and 87+10…87+15 for a–f. -/
def hexDigit (n : Nat) : Char :=
  if n < 10 then Char.ofNat (48 + n) else Char.ofNat (87 + n)

/-- The sixteen lowercase hex digit characters, in value order.
Models the digit alphabet of Rust's `{:x}` formatting. -/
def hexChars : List Char := (List.range 16).map hexDigit

/-- Two-digit lowercase hex rendering of a byte: Rust `{:02x}` on a `u8`. -/
def hexByte (n : Nat) : List Char := [hexDigit (n / 16), hexDigit (n % 16)]

/-- The `display_value` built at `main.rs:79`:
`format!("#{:02x}{:02x}{:02x}", c.red, c.green, c.blue)`. -/
def hexString (c : RGB) : String :=
  String.mk ('#' :: (hexByte c.red.val ++ hexByte c.green.val ++ hexByte c.blue.val))

/-- The escape-sequence head of a swatch line, `"\x1B[38;2;{};{};{}m▇ "`
with the swatch's own channel values as decimal parameters (`main.rs:84-87`). -/
def fgEscape (c : RGB) : String :=
  "\x1B[38;2;" ++ Nat.repr c.red.val ++ ";" ++ Nat.repr c.green.val ++ ";"
    ++ Nat.repr c.blue.val ++ "m▇ "

/-- The trailing reset sequence `"\x1B[0m"` of a swatch line. -/
def resetSeq : String := "\x1B[0m"

/-- One output line of the loop at `main.rs:78-89`: with `--no-palette`
the bare hex string, otherwise the hex string wrapped in a 24-bit
foreground escape and a reset. -/
def renderLine (noPalette : Bool) (c : RGB) : String :=
  if noPalette then hexString c
  else fgEscape c ++ hexString c ++ resetSeq

/-- The full output of the print loop at `main.rs:78-89`: one line per
element of `rgb`, in order.  The loop performs no filtering. -/
def renderLines (noPalette : Bool) (colors : List RGB) : List String :=
  colors.map (renderLine noPalette)

/-- The configuration read from the command line in `main.rs:17-38`. -/
structure Args where
  path : String
  terminalColours : Bool
  randomSeed : Bool
  maxBrightness : Bool
  seed : Nat
  maxColours : Nat
  noPalette : Bool

/-- The external collaborators `main` invokes, as black boxes: the
entropy source behind `rand::random()`, the two byte extractors of
`get_bytes.rs`, the palette crate's sRGB↔Lab conversions, and the
kmeans library.  `Lab` is the collaborator's perceptual color type,
opaque to the glue code. -/
structure Collaborators (Lab : Type) where
  entropy : Nat
  getBytesForGif : String → List (Fin 256)
  getBytesForImage : String → List (Fin 256)
  toLab : Fin 256 × Fin 256 × Fin 256 × Fin 256 → Lab
  getKmeansHamerly : Nat → Nat → ℚ → Bool → List Lab → Nat → List Lab
  fromLab : Lab → RGB

/-- The seed selection at `main.rs:30-34`: a fresh draw from the entropy
source under `--random-seed`, otherwise the caller-supplied seed. -/
def seedUsed {Lab : Type} (C : Collaborators Lab) (a : Args) : Nat :=
  if a.randomSeed then C.entropy else a.seed

/-- The adjustment at `main.rs:40`:
`if terminal_colours && 16 > colour_count { 16 } else { colour_count }`. -/
def effectiveColourCount (terminal : Bool) (n : Nat) : Nat :=
  if terminal && decide (16 > n) then 16 else n

/-- The character-wise lowercasing of a path, modelling Rust's
`to_lowercase` (which agrees with per-character ASCII lowering on the
ASCII range relevant to the `.gif` suffix test). -/
def lowerData (p : String) : List Char := p.data.map Char.toLower

/-- The dispatch test at `main.rs:44`: `path.to_lowercase().ends_with(".gif")`. -/
def isGifPath (p : String) : Bool := List.isSuffixOf ".gif".data (lowerData p)

/-- The byte acquisition at `main.rs:44-48`: the GIF extractor for paths
whose lowercased form ends in `.gif`, the static-image extractor otherwise. -/
def sampleBytes {Lab : Type} (C : Collaborators Lab) (a : Args) : List (Fin 256) :=
  if isGifPath a.path then C.getBytesForGif a.path else C.getBytesForImage a.path

/-- `Srgba::from_raw_slice` at `main.rs:53`: groups the flat byte buffer
into RGBA quadruples (the source asserts the length is a multiple of 4;
a trailing fragment is dropped here). -/
def chunk4 : List (Fin 256) → List (Fin 256 × Fin 256 × Fin 256 × Fin 256)
  | r :: g :: b :: a :: rest => (r, g, b, a) :: chunk4 rest
  | _ => []

/-- The argument tuple of the `get_kmeans_hamerly` invocation at `main.rs:62`. -/
structure KmeansCall (Lab : Type) where
  k : Nat
  maxIterations : Nat
  converge : ℚ
  verbose : Bool
  points : List Lab
  seed : Nat

/-- The arguments `main` passes to `get_kmeans_hamerly` (`main.rs:58-62`):
the effective colour count, the fixed constants 20 / 1.0 / false, the
Lab-converted samples, and the selected seed. -/
def kmeansCall {Lab : Type} (C : Collaborators Lab) (a : Args) : KmeansCall Lab :=
  { k := effectiveColourCount a.terminalColours a.maxColours
    maxIterations := 20
    converge := 1
    verbose := false
    points := (chunk4 (sampleBytes C a)).map C.toLab
    seed := seedUsed C a }

/-- Modelled from the spec: `terminal_colours.rs` is not among the
sources.  The 16-entry reference table (§3, §4.4 of the spec), with the
concrete channel values fixed by the repository's own test
`it_prints_the_ansi_terminal_colours_mapped_correctly` in `main.rs`. -/
def terminalPalette : List RGB :=
  [⟨0, 0, 0⟩, ⟨170, 0, 0⟩, ⟨0, 170, 0⟩, ⟨128, 128, 0⟩,
   ⟨0, 0, 170⟩, ⟨170, 0, 170⟩, ⟨0, 170, 170⟩, ⟨170, 170, 170⟩,
   ⟨85, 85, 85⟩, ⟨255, 0, 0⟩, ⟨0, 255, 0⟩, ⟨255, 255, 0⟩,
   ⟨0, 0, 255⟩, ⟨255, 0, 255⟩, ⟨0, 255, 255⟩, ⟨255, 255, 255⟩]

/-- The table entry at a given position. -/
def paletteEntry (i : Fin 16) : RGB := terminalPalette.getD i.val ⟨0, 0, 0⟩

/-- Squared RGB distance used for palette matching. -/
def distSq (a b : RGB) : Nat :=
  Nat.dist a.red.val b.red.val ^ 2 + Nat.dist a.green.val b.green.val ^ 2
    + Nat.dist a.blue.val b.blue.val ^ 2

/-- Modelled from the spec (§4.4): the table position nearest to a
representative color by color distance; under max-brightness mode ties
resolve toward the later (bright-tier) half of the table. -/
def nearestPaletteIndex (mb : Bool) (c : RGB) : Fin 16 :=
  (List.finRange 16).foldl
    (fun best i =>
      if (if mb then distSq c (paletteEntry i) ≤ distSq c (paletteEntry best)
          else distSq c (paletteEntry i) < distSq c (paletteEntry best))
      then i else best) 0

/-- Modelled from the spec: `terminal_colours.rs` is not among the
sources.  Per §4.4, each representative color is snapped to its nearest
table entry, and the matched entries are emitted in the table's fixed
position order 0–15 (each at most once, giving at most 16 results). -/
def create_terminal_colour (colors : List RGB) (mb : Bool) : List RGB :=
  (List.finRange 16).filterMap
    (fun i => if i ∈ colors.map (nearestPaletteIndex mb) then some (paletteEntry i) else none)

/-- The whole pipeline of `main` after argument parsing (`main.rs:30-89`):
seed selection, byte sampling, Lab conversion, clustering, conversion
back to sRGB, optional terminal-palette snapping, and rendering. -/
def run {Lab : Type} (C : Collaborators Lab) (a : Args) : List String :=
  let call := kmeansCall C a
  let result := C.getKmeansHamerly call.k call.maxIterations call.converge
      call.verbose call.points call.seed
  let srgbColors := result.map C.fromLab
  let rgb := if a.terminalColours then create_terminal_colour srgbColors a.maxBrightness
             else srgbColors
  renderLines a.noPalette rgb

/-- A concrete set of collaborators used to exercise the pipeline:
a solid-red one-pixel image, a clustering stub that keeps the first `k`
points, and identity-like conversions. -/
def sampleCollab : Collaborators Nat :=
  { entropy := 0
    getBytesForGif := fun _ => []
    getBytesForImage := fun _ => [255, 0, 0, 255]
    toLab := fun x => x.1.val
    getKmeansHamerly := fun k _ _ _ pts _ => pts.take k
    fromLab := fun n => ⟨⟨n % 256, Nat.mod_lt n (by norm_num)⟩, 0, 0⟩ }

/-- A concrete argument set: defaults with a fixed seed. -/
def sampleArgs : Args :=
  { path := "red.png"
    terminalColours := false
    randomSeed := false
    maxBrightness := false
    seed := 0
    maxColours := 5
    noPalette := true }

/-- C3: the cluster count handed to the clustering collaborator is
`max(requested, 16)` in terminal-palette mode and the requested count
unchanged otherwise. -/
theorem cluster_count_matches_mode {Lab : Type} (C : Collaborators Lab) (a : Args) :
    (kmeansCall C a).k = if a.terminalColours then max a.maxColours 16 else a.maxColours := by
  show effectiveColourCount a.terminalColours a.maxColours = _
  unfold effectiveColourCount
  cases a.terminalColours
  · simp
  · simp only [Bool.true_and, decide_eq_true_eq, gt_iff_lt, if_true]
    split_ifs with h <;> omega

/-- C5: every invocation of the clustering collaborator uses the fixed
configuration — 20 maximum iterations, convergence threshold 1.0 and
verbose diagnostics off — independently of the user-supplied arguments. -/
theorem kmeans_fixed_configuration {Lab : Type} (C : Collaborators Lab) (a : Args) :
    (kmeansCall C a).maxIterations = 20 ∧ (kmeansCall C a).converge = 1 ∧
      (kmeansCall C a).verbose = false :=
  ⟨rfl, rfl, rfl⟩

/-- C4: with `--random-seed` off, the caller-supplied seed is passed
verbatim to the clustering collaborator, and the whole run is
independent of the entropy source — two runs over the same sampled
bytes give byte-identical output. -/
theorem run_deterministic_for_fixed_seed {Lab : Type} (C : Collaborators Lab)
    (e₁ e₂ : Nat) (a : Args) (h : a.randomSeed = false) :
    (kmeansCall C a).seed = a.seed ∧
      run { C with entropy := e₁ } a = run { C with entropy := e₂ } a := by
  have hc : ∀ e : Nat, kmeansCall { C with entropy := e } a = kmeansCall C a := by
    intro e
    unfold kmeansCall seedUsed
    rw [h]
    rfl
  constructor
  · show seedUsed C a = a.seed
    simp [seedUsed, h]
  · unfold run
    rw [hc e₁, hc e₂]

/-- Witness for C4 at a concrete configuration. -/
theorem run_deterministic_for_fixed_seed_witness :
    sampleArgs.randomSeed = false ∧
      (kmeansCall sampleCollab sampleArgs).seed = sampleArgs.seed ∧
      run { sampleCollab with entropy := 3 } sampleArgs
        = run { sampleCollab with entropy := 7 } sampleArgs :=
  ⟨rfl, (run_deterministic_for_fixed_seed sampleCollab 3 7 sampleArgs rfl).1,
    (run_deterministic_for_fixed_seed sampleCollab 3 7 sampleArgs rfl).2⟩

/-- C10: outside terminal-palette mode the max-brightness flag is never
consulted, so flipping it leaves the output unchanged. -/
theorem max_brightness_no_effect_outside_terminal_mode {Lab : Type}
    (C : Collaborators Lab) (a : Args) (h : a.terminalColours = false) (b₁ b₂ : Bool) :
    run C { a with maxBrightness := b₁ } = run C { a with maxBrightness := b₂ } := by
  unfold run
  rw [h]
  rfl

/-- Witness for C10 at a concrete configuration. -/
theorem max_brightness_no_effect_witness :
    sampleArgs.terminalColours = false ∧
      run sampleCollab { sampleArgs with maxBrightness := true }
        = run sampleCollab { sampleArgs with maxBrightness := false } :=
  ⟨rfl, max_brightness_no_effect_outside_terminal_mode sampleCollab sampleArgs rfl true false⟩

/-- C7: the GIF sampling strategy is used exactly when the lowercased
path ends in `.gif`; the choice is a function of the lowercased path,
hence case-insensitive. -/
theorem gif_dispatch_by_lowercased_suffix {Lab : Type} (C : Collaborators Lab) (a : Args) :
    (isGifPath a.path = true → sampleBytes C a = C.getBytesForGif a.path) ∧
      (isGifPath a.path = false → sampleBytes C a = C.getBytesForImage a.path) ∧
      (isGifPath a.path = true ↔ List.isSuffixOf ".gif".data (lowerData a.path) = true) ∧
      (∀ q : String, lowerData a.path = lowerData q → isGifPath a.path = isGifPath q) := by
  refine ⟨?_, ?_, Iff.rfl, ?_⟩
  · intro h
    simp [sampleBytes, h]
  · intro h
    simp [sampleBytes, h]
  · intro q hq
    unfold isGifPath
    rw [hq]

/-- Witness for C7 at concrete paths. -/
theorem gif_dispatch_witness :
    isGifPath "anim.GIF" = true ∧
      sampleBytes sampleCollab { sampleArgs with path := "anim.GIF" }
        = sampleCollab.getBytesForGif "anim.GIF" ∧
      isGifPath "red.png" = false ∧
      sampleBytes sampleCollab sampleArgs = sampleCollab.getBytesForImage "red.png" ∧
      lowerData "anim.GIF" = lowerData "ANIM.gif" ∧
      isGifPath "anim.GIF" = isGifPath "ANIM.gif" :=
  ⟨by decide,
    (gif_dispatch_by_lowercased_suffix sampleCollab { sampleArgs with path := "anim.GIF" }).1
      (by decide),
    by decide,
    (gif_dispatch_by_lowercased_suffix sampleCollab sampleArgs).2.1 (by decide),
    by decide,
    (gif_dispatch_by_lowercased_suffix sampleCollab
      { sampleArgs with path := "anim.GIF" }).2.2.2 "ANIM.gif" (by decide)⟩

/-- Decimal parsing of a digit string, modelling the integer parsing the
command-line collaborator applies to option values. -/
def parseDigits (l : List Char) : Option Nat :=
  if l ≠ [] ∧ l.all Char.isDigit then
    some (l.foldl (fun acc c => 10 * acc + (c.toNat - 48)) 0)
  else none

/-- Modelled from the spec: `cli.rs` (the clap configuration) is not
among the sources.  Per §6 the requested colour count option parses as
a positive integer and defaults to 5 when absent. -/
def parseMaxColours : Option String → Except String Nat
  | none => Except.ok 5
  | some s =>
    match parseDigits s.data with
    | some n => if 1 ≤ n then Except.ok n else Except.error "colour count must be positive"
    | none => Except.error "invalid digit found in string"

/-- C9: every accepted colour count is at least 1, the default is 5, and
the count handed to clustering is never 0 for an accepted configuration. -/
theorem colour_count_at_least_one {Lab : Type} (C : Collaborators Lab) (a : Args) :
    (∀ s n, parseMaxColours s = Except.ok n → 1 ≤ n) ∧
      parseMaxColours none = Except.ok 5 ∧
      (1 ≤ a.maxColours → 1 ≤ (kmeansCall C a).k) := by
  refine ⟨?_, rfl, ?_⟩
  · intro s n h
    match s with
    | none => injection h with h; omega
    | some str =>
      simp only [parseMaxColours] at h
      split at h
      · split_ifs at h with h1
        injection h with h
        omega
      · exact absurd h (by simp)
  · intro h
    show 1 ≤ effectiveColourCount a.terminalColours a.maxColours
    unfold effectiveColourCount
    split_ifs <;> omega

/-- Witness for C9 at concrete values. -/
theorem colour_count_at_least_one_witness :
    parseMaxColours (some "8") = Except.ok 8 ∧
      (1 ≤ 8) ∧
      parseMaxColours none = Except.ok 5 ∧
      1 ≤ sampleArgs.maxColours ∧
      1 ≤ (kmeansCall sampleCollab sampleArgs).k :=
  ⟨rfl, (colour_count_at_least_one sampleCollab sampleArgs).1 (some "8") 8 rfl,
    (colour_count_at_least_one sampleCollab sampleArgs).2.1,
    by decide,
    (colour_count_at_least_one sampleCollab sampleArgs).2.2 (by decide)⟩

/-- The observable outcome of one whole process run: the exit status and
the lines printed on the success stream. -/
structure ProcResult where
  exitCode : Nat
  stdoutLines : List String
deriving DecidableEq, Repr

/-- The exit status of argument-validation failures, fixed by the
repository's tests (`it_fails_if_you_pass_an_invalid_max_colours`). -/
def argErrorExit : Nat := 2

/-- The exit status of runtime failures, fixed by the repository's tests
(`it_fails_if_you_pass_an_nonexistent_file`). -/
def runtimeErrorExit : Nat := 1

/-- Modelled from the spec: `cli.rs` and `get_bytes.rs` are not among
the sources.  Per §6–§7 a run validates arguments before any image I/O,
then reads the image, and only on success renders output; each failure
class is terminal, maps to its own exit status and prints nothing on
the success stream. -/
def runProcess {Lab : Type} (C : Collaborators Lab)
    (parse : List String → Except String Args)
    (imageRead : String → Except String Unit) (argv : List String) : ProcResult :=
  match parse argv with
  | Except.error _ => { exitCode := argErrorExit, stdoutLines := [] }
  | Except.ok a =>
    match imageRead a.path with
    | Except.error _ => { exitCode := runtimeErrorExit, stdoutLines := [] }
    | Except.ok _ => { exitCode := 0, stdoutLines := run C a }

/-- C8: failing runs print nothing on the success stream; an argument
failure is decided before the image reader is ever consulted and its
exit status differs from the runtime-failure status; both differ from
the success status. -/
theorem failure_classes_distinct_and_silent {Lab : Type} (C : Collaborators Lab)
    (parse : List String → Except String Args)
    (imageRead : String → Except String Unit) (argv : List String) :
    (∀ m, parse argv = Except.error m →
      runProcess C parse imageRead argv = { exitCode := argErrorExit, stdoutLines := [] } ∧
        ∀ imageRead₂, runProcess C parse imageRead argv = runProcess C parse imageRead₂ argv) ∧
      (∀ a m, parse argv = Except.ok a → imageRead a.path = Except.error m →
        runProcess C parse imageRead argv
          = { exitCode := runtimeErrorExit, stdoutLines := [] }) ∧
      argErrorExit ≠ runtimeErrorExit ∧ argErrorExit ≠ 0 ∧ runtimeErrorExit ≠ 0 := by
  refine ⟨?_, ?_, by decide, by decide, by decide⟩
  · intro m hm
    constructor
    · unfold runProcess
      rw [hm]
    · intro imageRead₂
      unfold runProcess
      rw [hm]
  · intro a m ha hm
    simp only [runProcess, ha, hm]

/-- An argument parser that rejects every invocation, exercising the
argument-failure path. -/
def parseReject : List String → Except String Args :=
  fun _ => Except.error "Invalid value for max-colours"

/-- An argument parser that accepts every invocation with the sample
arguments, exercising the runtime-failure path. -/
def parseAccept : List String → Except String Args :=
  fun _ => Except.ok sampleArgs

/-- An image reader that fails as on a missing file. -/
def readMissing : String → Except String Unit :=
  fun _ => Except.error "No such file or directory"

/-- Witness for C8 at concrete parser and reader outcomes. -/
theorem failure_classes_witness :
    runProcess sampleCollab parseReject readMissing ["NaN"]
        = { exitCode := argErrorExit, stdoutLines := [] } ∧
      runProcess sampleCollab parseReject readMissing ["NaN"]
        = runProcess sampleCollab parseReject (fun _ => Except.ok ()) ["NaN"] ∧
      runProcess sampleCollab parseAccept readMissing ["gone.png"]
        = { exitCode := runtimeErrorExit, stdoutLines := [] } ∧
      argErrorExit ≠ runtimeErrorExit :=
  ⟨((failure_classes_distinct_and_silent sampleCollab parseReject readMissing ["NaN"]).1
      "Invalid value for max-colours" rfl).1,
    ((failure_classes_distinct_and_silent sampleCollab parseReject readMissing ["NaN"]).1
      "Invalid value for max-colours" rfl).2 (fun _ => Except.ok ()),
    (failure_classes_distinct_and_silent sampleCollab parseAccept readMissing
      ["gone.png"]).2.1 sampleArgs "No such file or directory" rfl rfl,
    (failure_classes_distinct_and_silent sampleCollab parseAccept readMissing
      ["gone.png"]).2.2.1⟩

/-- A guarded `filterMap` over a list is a sublist of the corresponding map. -/
theorem filterMap_guard_sublist {α β : Type} (p : α → Prop) [DecidablePred p] (f : α → β)
    (l : List α) :
    List.Sublist (l.filterMap fun i => if p i then some (f i) else none) (l.map f) := by
  induction l with
  | nil => simp
  | cons x xs ih =>
    by_cases h : p x
    · simpa [h] using ih.cons₂ (f x)
    · simpa [h] using ih.cons (f x)

/-- The reference table is the position-ordered listing of its entries. -/
theorem terminalPalette_eq_map : terminalPalette = (List.finRange 16).map paletteEntry := by
  decide

/-- In terminal mode the run renders the snapped colors. -/
theorem run_terminal_eq {Lab : Type} (C : Collaborators Lab) (a : Args)
    (h : a.terminalColours = true) :
    run C a = renderLines a.noPalette (create_terminal_colour
      ((C.getKmeansHamerly (kmeansCall C a).k (kmeansCall C a).maxIterations
        (kmeansCall C a).converge (kmeansCall C a).verbose (kmeansCall C a).points
        (kmeansCall C a).seed).map C.fromLab) a.maxBrightness) := by
  unfold run
  rw [h]
  rfl

/-- C2: in terminal-palette mode the output is a sublist of the rendered
16-entry reference table in its fixed position order — hence at most 16
lines, each rendering one of the 16 reference colors, in table order. -/
theorem terminal_mode_output_is_palette_sublist {Lab : Type} (C : Collaborators Lab)
    (a : Args) (h : a.terminalColours = true) :
    List.Sublist (run C a) (terminalPalette.map (renderLine a.noPalette)) ∧
      (run C a).length ≤ 16 ∧
      ∀ l ∈ run C a, ∃ p ∈ terminalPalette, l = renderLine a.noPalette p := by
  have hs : List.Sublist (run C a) (terminalPalette.map (renderLine a.noPalette)) := by
    rw [run_terminal_eq C a h, terminalPalette_eq_map]
    exact List.Sublist.map (renderLine a.noPalette)
      (filterMap_guard_sublist _ paletteEntry (List.finRange 16))
  have hlen : (terminalPalette.map (renderLine a.noPalette)).length = 16 := by
    simp [terminalPalette]
  refine ⟨hs, ?_, ?_⟩
  · have := hs.length_le
    omega
  · intro l hl
    have hm := hs.subset hl
    rcases List.mem_map.mp hm with ⟨p, hp, he⟩
    exact ⟨p, hp, he.symm⟩

/-- Witness for C2 at a concrete terminal-mode configuration. -/
theorem terminal_mode_output_witness :
    ({ sampleArgs with terminalColours := true } : Args).terminalColours = true ∧
      List.Sublist (run sampleCollab { sampleArgs with terminalColours := true })
        (terminalPalette.map
          (renderLine ({ sampleArgs with terminalColours := true } : Args).noPalette)) ∧
      (run sampleCollab { sampleArgs with terminalColours := true }).length ≤ 16 :=
  ⟨rfl,
    (terminal_mode_output_is_palette_sublist sampleCollab
      { sampleArgs with terminalColours := true } rfl).1,
    (terminal_mode_output_is_palette_sublist sampleCollab
      { sampleArgs with terminalColours := true } rfl).2.1⟩

/-- A solid-red swatch. -/
def redSwatch : RGB := ⟨255, 0, 0⟩

/-- A solid-blue swatch. -/
def blueSwatch : RGB := ⟨0, 0, 255⟩

/-- The character list behind a hex string. -/
theorem hexString_data_eq (c : RGB) :
    (hexString c).data = '#' :: (hexByte c.red.val ++ hexByte c.green.val ++ hexByte c.blue.val) :=
  rfl

/-- Hex strings always have seven characters. -/
theorem hexString_data_length (c : RGB) : (hexString c).data.length = 7 := by
  simp [hexString_data_eq, hexByte]

/-- Hex strings always have seven characters (string form). -/
theorem hexString_length (c : RGB) : (hexString c).length = 7 :=
  hexString_data_length c

/-- Decomposition of a default-mode line into escape head, hex string and reset. -/
theorem renderLine_false_data (c : RGB) :
    (renderLine false c).data = (fgEscape c).data ++ ((hexString c).data ++ resetSeq.data) := by
  show (fgEscape c ++ hexString c ++ resetSeq).data = _
  rw [String.data_append, String.data_append, List.append_assoc]

/-- Two equal swatch lines carry equal hex strings: the hex string and
the reset form a fixed-length tail of every line. -/
theorem renderLine_hex_inj {np : Bool} {c d : RGB} (h : renderLine np c = renderLine np d) :
    hexString c = hexString d := by
  cases np with
  | true => exact h
  | false =>
    have hd := congrArg String.data h
    rw [renderLine_false_data, renderLine_false_data] at hd
    have h2 := (List.append_inj' hd (by simp [hexString_data_length, hexString_length])).2
    have h3 := (List.append_inj h2 (by simp [hexString_data_length, hexString_length])).1
    exact String.ext h3

/-- C1 counterexample: the render loop emits one line per color with no
deduplication, so a sequence containing the same color twice produces
two identical hex lines — the second occurrence is not suppressed. -/
theorem renderer_emits_duplicate_lines :
    renderLines true [redSwatch, redSwatch] = ["#ff0000", "#ff0000"] ∧
      ¬ (renderLines true [redSwatch, redSwatch]).Pairwise (fun x y => x ≠ y) := by
  refine ⟨rfl, ?_⟩
  intro hp
  have he : renderLines true [redSwatch, redSwatch] = ["#ff0000", "#ff0000"] := rfl
  rw [he] at hp
  exact (List.pairwise_cons.mp hp).1 "#ff0000" (by simp) rfl

/-- C1 amended: the renderer emits exactly one line per color of the
final sequence, in order and without deduplication; output lines are
pairwise distinct whenever the colors' hex strings are pairwise
distinct. -/
theorem renderer_one_line_per_colour (np : Bool) (colors : List RGB) :
    (renderLines np colors).length = colors.length ∧
      (colors.Pairwise (fun c d => hexString c ≠ hexString d) →
        (renderLines np colors).Pairwise (fun x y => x ≠ y)) := by
  constructor
  · simp [renderLines]
  · intro hp
    unfold renderLines
    rw [List.pairwise_map]
    exact hp.imp (fun h he => h (renderLine_hex_inj he))

/-- Witness for C1's amended claim at a concrete two-color sequence. -/
theorem renderer_one_line_per_colour_witness :
    ([redSwatch, blueSwatch].Pairwise fun c d => hexString c ≠ hexString d) ∧
      (renderLines false [redSwatch, blueSwatch]).length = 2 ∧
      (renderLines false [redSwatch, blueSwatch]).Pairwise (fun x y => x ≠ y) := by
  have hp : [redSwatch, blueSwatch].Pairwise fun c d => hexString c ≠ hexString d := by
    decide
  exact ⟨hp, (renderer_one_line_per_colour false [redSwatch, blueSwatch]).1,
    (renderer_one_line_per_colour false [redSwatch, blueSwatch]).2 hp⟩

/-- Every produced nibble digit is one of the sixteen lowercase characters. -/
theorem hexDigit_mem_hexChars {n : Nat} (h : n < 16) : hexDigit n ∈ hexChars :=
  List.mem_map.mpr ⟨n, List.mem_range.mpr h, rfl⟩

/-- Every character of a rendered hex byte is a lowercase hex digit. -/
theorem mem_hexByte_mem_hexChars {ch : Char} {n : Nat} (hn : n < 256) (h : ch ∈ hexByte n) :
    ch ∈ hexChars := by
  simp only [hexByte, List.mem_cons, List.not_mem_nil, or_false] at h
  rcases h with h | h <;> subst h
  · exact hexDigit_mem_hexChars (by omega)
  · exact hexDigit_mem_hexChars (Nat.mod_lt _ (by norm_num))

/-- C6: a swatch's text is `#` followed by six lowercase hex digits; the
plain-mode line is exactly that string with no escape character, and the
default-mode line is the hex string wrapped in a foreground escape
carrying the swatch's own channel values and a trailing reset. -/
theorem swatch_line_format (c : RGB) :
    (hexString c).data.length = 7 ∧
      (hexString c).data.head? = some '#' ∧
      (∀ ch ∈ (hexString c).data.tail, ch ∈ hexChars) ∧
      renderLine true c = hexString c ∧
      (∀ ch ∈ (renderLine true c).data, ch ≠ '\x1B') ∧
      renderLine false c = fgEscape c ++ hexString c ++ resetSeq := by
  have tailMem : ∀ ch, ch ∈ (hexString c).data.tail → ch ∈ hexChars := by
    intro ch hch
    have ht : (hexString c).data.tail
        = hexByte c.red.val ++ hexByte c.green.val ++ hexByte c.blue.val := rfl
    rw [ht] at hch
    rcases List.mem_append.mp hch with h | h
    · rcases List.mem_append.mp h with h1 | h1
      · exact mem_hexByte_mem_hexChars c.red.isLt h1
      · exact mem_hexByte_mem_hexChars c.green.isLt h1
    · exact mem_hexByte_mem_hexChars c.blue.isLt h
  refine ⟨hexString_data_length c, rfl, tailMem, rfl, ?_, rfl⟩
  intro ch hch
  have hd : (renderLine true c).data = '#' :: (hexString c).data.tail := rfl
  rw [hd] at hch
  rcases List.mem_cons.mp hch with h | h
  · subst h
    decide
  · have hm := tailMem ch h
    intro he
    rw [he] at hm
    revert hm
    decide

/-- Witness for C6 at a concrete swatch and characters. -/
theorem swatch_line_format_witness :
    'f' ∈ (hexString redSwatch).data.tail ∧ 'f' ∈ hexChars ∧
      '0' ∈ (renderLine true redSwatch).data ∧ '0' ≠ '\x1B' :=
  ⟨by decide, (swatch_line_format redSwatch).2.2.1 'f' (by decide),
    by decide, (swatch_line_format redSwatch).2.2.2.2.1 '0' (by decide)⟩
